import Mathlib

/-!
Verification of the Python wrapper layer of `python-rationals`
(`src/rational.py`) against its natural-language specification.

The wrapper is thin glue over a native core (`librational.so`) that is not
part of the repository sources; we therefore embed the wrapper faithfully as
pure Lean functions parameterized by an abstract core `Lib`, whose field
types mirror the ctypes declarations at the top of `rational.py`
(handles are `c_long` → `Int`, tri-states are `c_int` → `Int`,
`ToFloatResult` is `{valid : c_bool, value : c_double}`, `String` is
`{len : c_uint, ptr : c_char_p}` with a possibly-null pointer).
The double payload type is kept abstract (`D`), since no claim depends on
the bit-level float format of the wrapper layer.

Python control flow is embedded as follows: a *raised* exception
(`raise RationalException(...)`) becomes `Except.error msg`; a
`RationalException` object that is *returned* as an ordinary value (as
`Rational.is_zero`, `Rational._cond` and `Rational.__truediv__` do) becomes
a dedicated constructor (`CondResult.exn` / `DivResult.exn`) of the normal
return type, since the caller receives it as a plain (truthy) value.

Where a claim is decided by the missing native core rather than the
wrapper, the core is modelled from the spec (see the `Modelled from the
spec:` doc comments below: the Value Store arena and the float converter).
-/

namespace PyRational

/-- Result struct of the core to_float: `{valid : bool, value : double}`
(`ToFloatResult` in rational.py, lines 12-13). -/
structure ToFloatResult (D : Type) where
  valid : Bool
  value : D
  deriving Repr, DecidableEq

/-- Result struct of the core to_string: `{len : uint, ptr : char*}`
(`String` in rational.py, lines 42-43).  A null `ptr` is `none`; a non-null
pointer carries the pointed-to bytes. -/
structure StringStruct where
  len : Nat
  ptr : Option (List UInt8)
  deriving Repr, DecidableEq

/-- Abstract interface of the native core library, mirroring the ctypes
signatures declared in rational.py lines 8-51.  Handles and tri-states are
`Int`; `D` is the double type. -/
structure Lib (D : Type) where
  from_float : D → Int
  to_float : Int → ToFloatResult D
  add : Int → Int → Int
  sub : Int → Int → Int
  mul : Int → Int → Int
  div : Int → Int → Int
  eq : Int → Int → Int
  neq : Int → Int → Int
  gt : Int → Int → Int
  lt : Int → Int → Int
  gte : Int → Int → Int
  lte : Int → Int → Int
  is_zero : Int → Int
  to_string : Int → StringStruct
  from_string : List UInt8 → Nat → Int

/-- A `Rational` wrapper object: it holds exactly one core handle
(rational.py line 70-72 and 74-78). -/
structure Rational where
  handle : Int
  deriving Repr, DecidableEq

/-- Message of the bare `RationalException()` raised by `_validate_handle`
(no argument is passed). -/
def noMsg : String := ""

/-- Message of the exception object returned by `Rational.is_zero`
(rational.py line 96). -/
def invalidHandleMsg : String := "invalid handle"

/-- Message of the exception object returned by `Rational._cond`
(rational.py line 107). -/
def condFailureMsg : String := "conditional failure"

/-- Message of the exception object returned by `Rational.__truediv__`
(rational.py line 121). -/
def divZeroMsg : String := "attempted to divide by zero"

/-- Message of the exception raised by `Rational.__float__`
(rational.py line 146). -/
def floatErrMsg : String := "this value cannot be converted to a float"

/-- Message of the exception raised by `Rational.__str__`
(rational.py line 152). -/
def strErrMsg : String := "failed to convert value to string"

/-- Stands in for the `UnicodeDecodeError` Python raises when
`bytes.decode` fails (rational.py line 153). -/
def decodeErrMsg : String := "UnicodeDecodeError"

/-- Embedding of `_validate_handle` (rational.py lines 65-67): raises a
bare `RationalException()` when the handle is negative, otherwise returns
nothing. -/
def validate_handle (handle : Int) : Except String Unit :=
  if handle < 0 then .error noMsg else .ok ()

/-- Embedding of `Rational.__init__` (rational.py lines 71-72): stores
whatever `lib.from_float` returns, with no validation, and never raises. -/
def Rational.init {D : Type} (lib : Lib D) (value : D) : Rational :=
  { handle := lib.from_float value }

/-- Embedding of `Rational.from_handle` (rational.py lines 74-78). -/
def Rational.from_handle (handle : Int) : Rational :=
  { handle := handle }

/-- UTF-8 encoding of a string as a byte list, the value of Python's
`string.encode('utf-8')`. -/
def utf8Encode (s : String) : List UInt8 :=
  s.data.flatMap String.utf8EncodeChar

/-- Arguments the wrapper passes to the core's from_string
(rational.py lines 82-83): the UTF-8 encoding of the text as the byte
pointer, and `len(string)` — the number of code points, as Python's `len`
on `str` counts characters — as the explicit length. -/
def from_string_args (s : String) : List UInt8 × Nat :=
  (utf8Encode s, s.length)

/-- Embedding of `Rational.from_string` (rational.py lines 80-88): calls the
core, validates the returned handle (raising on the negative sentinel), and
only then constructs the wrapper object. -/
def Rational.from_string {D : Type} (lib : Lib D) (s : String) :
    Except String Rational :=
  let args := from_string_args s
  let handle := lib.from_string args.1 args.2
  match validate_handle handle with
  | .error e => .error e
  | .ok _ => .ok { handle := handle }

/-- Embedding of `Rational.__del__` (rational.py lines 90-91): the list of
handles passed to the core's delete during teardown of one object.  The
stored handle is passed unconditionally, exactly once, with no validation. -/
def Rational.delCalls (self : Rational) : List Int :=
  [self.handle]

/-- Return value of `Rational.is_zero` and `Rational._cond`: either an
ordinary boolean, or a `RationalException` object (with its message)
returned — not raised — as the value. -/
inductive CondResult where
  | val (b : Bool)
  | exn (msg : String)
  deriving Repr, DecidableEq

/-- Python truthiness of a `CondResult`: a boolean is its own truth value;
an exception object is truthy. -/
def CondResult.truthy : CondResult → Bool
  | .val b => b
  | .exn _ => true

/-- Embedding of `Rational.is_zero` (rational.py lines 93-97): on a
negative tri-state it returns (does not raise) a
`RationalException("invalid handle")`, else returns `result != 0`. -/
def Rational.is_zero {D : Type} (lib : Lib D) (self : Rational) : CondResult :=
  let result := lib.is_zero self.handle
  if result < 0 then .exn invalidHandleMsg else .val (result != 0)

/-- Embedding of `Rational._binop` (rational.py lines 99-102): calls the
core binop, raises via `_validate_handle` on the negative sentinel, else
wraps the fresh handle. -/
def Rational.binop (f : Int → Int → Int) (self other : Rational) :
    Except String Rational :=
  let res_handle := f self.handle other.handle
  match validate_handle res_handle with
  | .error e => .error e
  | .ok _ => .ok (Rational.from_handle res_handle)

/-- Embedding of `Rational._cond` (rational.py lines 104-108): on a
negative tri-state it returns (does not raise) a
`RationalException("conditional failure")`, else returns `res != 0`. -/
def Rational.cond (f : Int → Int → Int) (self other : Rational) : CondResult :=
  let res := f self.handle other.handle
  if res < 0 then .exn condFailureMsg else .val (res != 0)

/-- Embedding of `Rational.__add__` (rational.py lines 110-111). -/
def Rational.addOp {D : Type} (lib : Lib D) (self other : Rational) :
    Except String Rational :=
  Rational.binop lib.add self other

/-- Embedding of `Rational.__sub__` (rational.py lines 113-114). -/
def Rational.subOp {D : Type} (lib : Lib D) (self other : Rational) :
    Except String Rational :=
  Rational.binop lib.sub self other

/-- Embedding of `Rational.__mul__` (rational.py lines 116-117). -/
def Rational.mulOp {D : Type} (lib : Lib D) (self other : Rational) :
    Except String Rational :=
  Rational.binop lib.mul self other

/-- Return value of `Rational.__truediv__`: either a `Rational` object, or
a `RationalException` object returned — not raised — as the value. -/
inductive DivResult where
  | obj (r : Rational)
  | exn (msg : String)
  deriving Repr, DecidableEq

/-- Embedding of `Rational.__truediv__` (rational.py lines 119-123): if
`other.is_zero()` is truthy (which includes the case where `is_zero`
returned an exception object), it returns (does not raise) a
`RationalException("attempted to divide by zero")`; otherwise it defers to
`_binop` with the core div, which may raise. -/
def Rational.truediv {D : Type} (lib : Lib D) (self other : Rational) :
    Except String DivResult :=
  if (Rational.is_zero lib other).truthy then
    .ok (.exn divZeroMsg)
  else
    match Rational.binop lib.div self other with
    | .error e => .error e
    | .ok r => .ok (.obj r)

/-- Embedding of `Rational.__eq__` (rational.py lines 125-126). -/
def Rational.eqOp {D : Type} (lib : Lib D) (self other : Rational) : CondResult :=
  Rational.cond lib.eq self other

/-- Embedding of `Rational.__ne__` (rational.py lines 128-129). -/
def Rational.neOp {D : Type} (lib : Lib D) (self other : Rational) : CondResult :=
  Rational.cond lib.neq self other

/-- Embedding of `Rational.__lt__` (rational.py lines 131-132). -/
def Rational.ltOp {D : Type} (lib : Lib D) (self other : Rational) : CondResult :=
  Rational.cond lib.lt self other

/-- Embedding of `Rational.__gt__` (rational.py lines 134-135). -/
def Rational.gtOp {D : Type} (lib : Lib D) (self other : Rational) : CondResult :=
  Rational.cond lib.gt self other

/-- Embedding of `Rational.__le__` (rational.py lines 137-138). -/
def Rational.leOp {D : Type} (lib : Lib D) (self other : Rational) : CondResult :=
  Rational.cond lib.lte self other

/-- Embedding of `Rational.__ge__` (rational.py lines 140-141). -/
def Rational.geOp {D : Type} (lib : Lib D) (self other : Rational) : CondResult :=
  Rational.cond lib.gte self other

/-- Embedding of `Rational.__float__` (rational.py lines 143-147): raises
when the core result has `valid = false`, else returns the payload. -/
def Rational.toFloat {D : Type} (lib : Lib D) (self : Rational) :
    Except String D :=
  let res := lib.to_float self.handle
  if res.valid then .ok res.value
  else .error floatErrMsg

/-- Embedding of `Rational.__str__` (rational.py lines 149-155).  Returns
the outcome together with the list of buffers passed to the core's
free_string.  Decoding of the returned bytes (`.decode("utf8")`, which can
raise) is abstracted as a partial function `decode`; on a null pointer the
wrapper raises before any free; on a decode failure the UnicodeDecodeError
propagates before `free_string` is reached; on success `free_string`
receives exactly the struct returned by to_string, once, before the text is
returned. -/
def Rational.toStr {D : Type} (lib : Lib D)
    (decode : List UInt8 → Option String) (self : Rational) :
    Except String String × List StringStruct :=
  let cstr := lib.to_string self.handle
  match cstr.ptr with
  | none => (.error strErrMsg, [])
  | some bytes =>
    match decode bytes with
    | none => (.error decodeErrMsg, [])
    | some res => (.ok res, [cstr])

/-! ## Spec-modelled core: the Value Store arena and arithmetic ops

The native core is not among the repository sources; claims about its
allocation behaviour (fresh handles, operand preservation) are settled
against a model built from spec sections 3, 4.1 and 4.8. -/

/-- Modelled from the spec (section 4.1 allocate, "stores value in the
smallest free slot (reuse before growth)"): index of the first unoccupied
slot, together with the updated slot list; grows by one slot when the table
is full.  Growth failure (OutOfMemory) is not modelled, as no claim
concerns it. -/
def allocFirst : List (Option ℚ) → ℚ → Nat × List (Option ℚ)
  | [], v => (0, [some v])
  | none :: rest, v => (0, some v :: rest)
  | some w :: rest, v =>
    let p := allocFirst rest v
    (p.1 + 1, some w :: p.2)

/-- Modelled from the spec (section 3 Value Store): the process-wide table
of slots; an unoccupied slot is `none`.  A stored `RationalValue` is a
Lean `ℚ`, which is canonical lowest-terms with positive denominator exactly
as the spec's invariant requires. -/
structure Store where
  slots : List (Option ℚ)
  deriving Repr, DecidableEq

/-- Modelled from the spec (section 4.1 get): fails (`none`) if the handle
is negative, out of range, or the slot is unoccupied. -/
def Store.get (st : Store) (h : Int) : Option ℚ :=
  if h < 0 then none
  else
    match st.slots[h.toNat]? with
    | some (some v) => some v
    | _ => none

/-- Modelled from the spec (section 4.1 allocate): returns the fresh
handle, a non-negative index, and the updated store. -/
def Store.allocate (st : Store) (v : ℚ) : Int × Store :=
  let p := allocFirst st.slots v
  ((p.1 : Int), ⟨p.2⟩)

/-- Modelled from the spec (sections 4.8 and 7): a core binary arithmetic
op reads both operand handles from the store, computes (the `Option`
result is `none` exactly on DivisionByZero), and allocates a fresh handle
for the produced value; every failure collapses to the negative sentinel
`-1` with the store untouched. -/
def binCore (f : ℚ → ℚ → Option ℚ) (st : Store) (a b : Int) : Int × Store :=
  match st.get a, st.get b with
  | some x, some y =>
    match f x y with
    | some v => st.allocate v
    | none => (-1, st)
  | _, _ => (-1, st)

/-- Modelled from the spec (section 4.8 add): a/b + c/d then normalize. -/
def qadd (x y : ℚ) : Option ℚ := some (x + y)

/-- Modelled from the spec (section 4.8 sub). -/
def qsub (x y : ℚ) : Option ℚ := some (x - y)

/-- Modelled from the spec (section 4.8 mul). -/
def qmul (x y : ℚ) : Option ℚ := some (x * y)

/-- Modelled from the spec (section 4.8 div): fails with DivisionByZero if
the right operand is the rational zero. -/
def qdiv (x y : ℚ) : Option ℚ := if y = 0 then none else some (x / y)

/-- Embedding of `Rational._binop` (rational.py lines 99-102) over the
stateful spec-modelled core: identical control flow to `Rational.binop`,
with the store threaded explicitly through the core call. -/
def Rational.binopS (f : ℚ → ℚ → Option ℚ) (st : Store)
    (self other : Rational) : Except String (Rational × Store) :=
  let p := binCore f st self.handle other.handle
  match validate_handle p.1 with
  | .error e => .error e
  | .ok _ => .ok (Rational.from_handle p.1, p.2)

/-! ## Spec-modelled core: the float converter

Doubles are modelled by their exact rational values: the finite doubles are
precisely the dyadic rationals `m * 2^e` with `|m| <= 2^53 - 1` and
`-1074 <= e <= 971` (IEEE-754 binary64 mantissa/exponent decomposition,
subnormals included). -/

/-- Value of a mantissa/exponent pair as an exact rational. -/
def dyadic (m e : ℤ) : ℚ := (m : ℚ) * (2 : ℚ) ^ e

/-- Mantissa/exponent bounds of IEEE-754 binary64. -/
def FiniteDouble (m e : ℤ) : Prop :=
  m.natAbs ≤ 2 ^ 53 - 1 ∧ -1074 ≤ e ∧ e ≤ 971

/-- A rational is representable as a finite binary64 double. -/
def Repr64 (q : ℚ) : Prop :=
  ∃ m e : ℤ, FiniteDouble m e ∧ q = dyadic m e

/-- Modelled from the spec (section 4.5 from_float): a finite, non-NaN
double, given by its mantissa/exponent decomposition, converts to the
exactly equal fraction. -/
def from_floatSpec (m e : ℤ) : ℚ := dyadic m e

/-- Modelled from the spec (section 4.5 to_float): when the result is
valid, the returned double is a nearest representable value to the stored
rational (round-to-nearest). -/
def NearestDouble (q d : ℚ) : Prop :=
  Repr64 d ∧ ∀ d', Repr64 d' → |q - d| ≤ |q - d'|

/-! ## Concrete core stubs used by closed witnesses -/

/-- Stub core on which every call fails: every handle-returning call
yields the negative sentinel, every tri-state is negative, to_float is
invalid and to_string returns a null pointer — the spec-permitted
all-failure behaviour (e.g. after deinit). -/
def sentinelLib : Lib Unit where
  from_float := fun _ => -1
  to_float := fun _ => { valid := false, value := () }
  add := fun _ _ => -1
  sub := fun _ _ => -1
  mul := fun _ _ => -1
  div := fun _ _ => -1
  eq := fun _ _ => -1
  neq := fun _ _ => -1
  gt := fun _ _ => -1
  lt := fun _ _ => -1
  gte := fun _ _ => -1
  lte := fun _ _ => -1
  is_zero := fun _ => -1
  to_string := fun _ => { len := 0, ptr := none }
  from_string := fun _ _ => -1

/-- Bytes of the text 1/2, which the stub core's to_string returns. -/
def oneHalfBytes : List UInt8 := [49, 47, 50]

/-- Text decoded from `oneHalfBytes`. -/
def oneHalfText : String := "1/2"

/-- Stub core on which every call succeeds and every value reports as the
rational zero (is_zero returns the tri-state 1). -/
def happyLib : Lib Unit where
  from_float := fun _ => 0
  to_float := fun _ => { valid := true, value := () }
  add := fun _ _ => 2
  sub := fun _ _ => 2
  mul := fun _ _ => 2
  div := fun _ _ => 2
  eq := fun _ _ => 1
  neq := fun _ _ => 0
  gt := fun _ _ => 0
  lt := fun _ _ => 0
  gte := fun _ _ => 1
  lte := fun _ _ => 1
  is_zero := fun _ => 1
  to_string := fun _ => { len := 3, ptr := some oneHalfBytes }
  from_string := fun _ _ => -1

/-- The one-character string U+00BD (vulgar fraction one half), whose UTF-8
encoding is two bytes long. -/
def halfStr : String := "½"

/-! ## Theorems -/

/-- Occupied slots are preserved by allocation, and the fresh index never
collides with an occupied one (spec section 4.1: reuse-before-growth picks
a free slot). -/
theorem allocFirst_spec (v : ℚ) :
    ∀ (slots : List (Option ℚ)) (i : Nat) (x : ℚ),
    slots[i]? = some (some x) →
    (allocFirst slots v).1 ≠ i ∧ ((allocFirst slots v).2)[i]? = some (some x) := by
  intro slots
  induction slots with
  | nil => intro i x h; simp at h
  | cons hd tl ih =>
    intro i x h
    cases hd with
    | none =>
      cases i with
      | zero => simp at h
      | succ j => exact ⟨by simp [allocFirst], by simpa [allocFirst] using h⟩
    | some w =>
      cases i with
      | zero =>
        simp at h
        subst h
        exact ⟨by simp [allocFirst], by simp [allocFirst]⟩
      | succ j =>
        have hj := ih j x (by simpa using h)
        refine ⟨?_, by simpa [allocFirst] using hj.2⟩
        simp [allocFirst]
        omega

/-- Characterization of a successful Value Store lookup. -/
theorem Store.get_eq_some_iff (st : Store) (h : Int) (x : ℚ) :
    st.get h = some x ↔ 0 ≤ h ∧ st.slots[h.toNat]? = some (some x) := by
  unfold Store.get
  constructor
  · intro hx
    by_cases hneg : h < 0
    · rw [if_pos hneg] at hx
      cases hx
    · rw [if_neg hneg] at hx
      refine ⟨by omega, ?_⟩
      rcases hg : st.slots[h.toNat]? with _ | (_ | w) <;> rw [hg] at hx
      · cases hx
      · cases hx
      · injection hx with hw
        rw [hw]
  · intro hx
    rw [if_neg (by omega), hx.2]

/-- A successful core binary op returns a handle distinct from both operand
handles and leaves both operand slots untouched. -/
theorem binCore_ok (f : ℚ → ℚ → Option ℚ) (st : Store) (a b h : Int)
    (st' : Store) (hok : binCore f st a b = (h, st')) (hnn : 0 ≤ h) :
    h ≠ a ∧ h ≠ b ∧ st'.get a = st.get a ∧ st'.get b = st.get b := by
  unfold binCore at hok
  cases ha : st.get a with
  | none =>
    rw [ha] at hok
    simp at hok
    omega
  | some x =>
  cases hb : st.get b with
  | none =>
    rw [ha, hb] at hok
    simp at hok
    omega
  | some y =>
  rw [ha, hb] at hok
  simp only at hok
  cases hf : f x y with
  | none =>
    rw [hf] at hok
    simp at hok
    omega
  | some v =>
  rw [hf] at hok
  simp only [Store.allocate, Prod.mk.injEq] at hok
  obtain ⟨hh, hst⟩ := hok
  obtain ⟨ha0, hag⟩ := (Store.get_eq_some_iff st a x).mp ha
  obtain ⟨hb0, hbg⟩ := (Store.get_eq_some_iff st b y).mp hb
  obtain ⟨hane, hapres⟩ := allocFirst_spec v st.slots a.toNat x hag
  obtain ⟨hbne, hbpres⟩ := allocFirst_spec v st.slots b.toNat y hbg
  have hga' : st'.get a = some x := by
    refine (Store.get_eq_some_iff st' a x).mpr ⟨ha0, ?_⟩
    rw [← hst]
    exact hapres
  have hgb' : st'.get b = some y := by
    refine (Store.get_eq_some_iff st' b y).mpr ⟨hb0, ?_⟩
    rw [← hst]
    exact hbpres
  refine ⟨?_, ?_, hga', hgb'⟩
  · intro heq
    exact hane (by omega)
  · intro heq
    exact hbne (by omega)

/-- C1: the claim states that every comparison operation and is_zero raise
an exception when the core reports a negative tri-state.  The code instead
RETURNS a constructed `RationalException` object as an ordinary value: each
predicate evaluates to `CondResult.exn` — and the return type `CondResult`
has no raising alternative, so none of these functions can signal a
host-language failure at all.  This theorem documents the actual (buggy)
behaviour at the failing inputs. -/
theorem C1_predicates_return_exception_object {D : Type} (lib : Lib D)
    (a b : Rational) :
    (lib.eq a.handle b.handle < 0 →
      Rational.eqOp lib a b = .exn condFailureMsg) ∧
    (lib.neq a.handle b.handle < 0 →
      Rational.neOp lib a b = .exn condFailureMsg) ∧
    (lib.lt a.handle b.handle < 0 →
      Rational.ltOp lib a b = .exn condFailureMsg) ∧
    (lib.gt a.handle b.handle < 0 →
      Rational.gtOp lib a b = .exn condFailureMsg) ∧
    (lib.lte a.handle b.handle < 0 →
      Rational.leOp lib a b = .exn condFailureMsg) ∧
    (lib.gte a.handle b.handle < 0 →
      Rational.geOp lib a b = .exn condFailureMsg) ∧
    (lib.is_zero a.handle < 0 →
      Rational.is_zero lib a = .exn invalidHandleMsg) := by
  refine ⟨?_, ?_, ?_, ?_, ?_, ?_, ?_⟩ <;> intro h <;>
    simp [Rational.eqOp, Rational.neOp, Rational.ltOp, Rational.gtOp,
      Rational.leOp, Rational.geOp, Rational.is_zero, Rational.cond, h]

/-- Closed instance of `C1_predicates_return_exception_object` on the
all-failing stub core. -/
theorem C1_witness :
    sentinelLib.eq (0 : Int) 0 < 0 ∧
    Rational.eqOp sentinelLib ⟨0⟩ ⟨0⟩ = .exn condFailureMsg ∧
    Rational.is_zero sentinelLib ⟨0⟩ = .exn invalidHandleMsg := by
  refine ⟨by decide, ?_, ?_⟩
  · exact (C1_predicates_return_exception_object sentinelLib ⟨0⟩ ⟨0⟩).1
      (by decide)
  · exact (C1_predicates_return_exception_object sentinelLib ⟨0⟩
      ⟨0⟩).2.2.2.2.2.2 (by decide)

/-- C2 counterexample: the claim counts exactly TWO call sites that
construct and return a `RationalException` object; the code has THREE,
distinguished here by their three distinct messages: the invalid-handle
check in `is_zero` (line 96), the invalid-handle check in `_cond` (line
107, reached through `__eq__`), and the zero-divisor check in
`__truediv__` (line 121).  In the third conjunct the divisor handle is
valid and `is_zero` returns an ordinary `True` (fourth conjunct), so the
returned exception object originates in `__truediv__` itself, not in
either of the other two sites. -/
theorem C2_counterexample :
    Rational.is_zero sentinelLib ⟨0⟩ = .exn invalidHandleMsg ∧
    Rational.eqOp sentinelLib ⟨0⟩ ⟨0⟩ = .exn condFailureMsg ∧
    Rational.truediv happyLib ⟨0⟩ ⟨1⟩ = .ok (.exn divZeroMsg) ∧
    Rational.is_zero happyLib ⟨1⟩ = .val true :=
  ⟨rfl, rfl, rfl, rfl⟩

/-- C2 (amended): in exactly three call sites — the invalid-handle check
of `is_zero`, the invalid-handle check of `_cond` (shared by the six
comparison operators), and the zero-divisor check of `__truediv__` — a
`RationalException` object is constructed and returned rather than raised,
so the caller receives it as a truthy non-error value.  (No other wrapper
function can return an exception object: every other return type has no
exception-object alternative, and their failures go through `raise`.) -/
theorem C2_three_sites_return_exception_object {D : Type} (lib : Lib D)
    (a b : Rational) :
    (lib.is_zero a.handle < 0 →
      Rational.is_zero lib a = .exn invalidHandleMsg ∧
      (Rational.is_zero lib a).truthy = true) ∧
    (lib.eq a.handle b.handle < 0 →
      Rational.cond lib.eq a b = .exn condFailureMsg ∧
      (Rational.cond lib.eq a b).truthy = true) ∧
    ((Rational.is_zero lib b).truthy = true →
      Rational.truediv lib a b = .ok (.exn divZeroMsg)) := by
  refine ⟨?_, ?_, ?_⟩
  · intro h
    simp [Rational.is_zero, CondResult.truthy, h]
  · intro h
    simp [Rational.cond, CondResult.truthy, h]
  · intro h
    simp [Rational.truediv, h]

/-- Closed instance of `C2_three_sites_return_exception_object` on the
stub cores. -/
theorem C2_witness :
    (Rational.is_zero sentinelLib ⟨0⟩ = .exn invalidHandleMsg ∧
      (Rational.is_zero sentinelLib ⟨0⟩).truthy = true) ∧
    (Rational.cond sentinelLib.eq ⟨0⟩ ⟨0⟩ = .exn condFailureMsg ∧
      (Rational.cond sentinelLib.eq ⟨0⟩ ⟨0⟩).truthy = true) ∧
    Rational.truediv happyLib ⟨0⟩ ⟨1⟩ = .ok (.exn divZeroMsg) := by
  refine ⟨?_, ?_, ?_⟩
  · exact (C2_three_sites_return_exception_object sentinelLib ⟨0⟩ ⟨0⟩).1
      (by decide)
  · exact (C2_three_sites_return_exception_object sentinelLib ⟨0⟩ ⟨0⟩).2.1
      (by decide)
  · exact (C2_three_sites_return_exception_object happyLib ⟨0⟩ ⟨1⟩).2.2
      (by decide)

/-- C3: whenever the core from_string returns the negative sentinel on the
arguments the wrapper passes for a string (as it does per spec on empty
input, illegal characters, more than one decimal point, or a misplaced
sign), `Rational.from_string` raises a `RationalException` (through
`_validate_handle`) and constructs no `Rational` object. -/
theorem C3_from_string_raises_on_core_failure {D : Type} (lib : Lib D)
    (s : String)
    (hneg : lib.from_string (from_string_args s).1 (from_string_args s).2 < 0) :
    Rational.from_string lib s = .error noMsg := by
  simp [Rational.from_string, validate_handle, hneg]

/-- Closed instance of `C3_from_string_raises_on_core_failure` on the
all-failing stub core and the empty string. -/
theorem C3_witness :
    sentinelLib.from_string (from_string_args (String.mk [])).1
      (from_string_args (String.mk [])).2 < 0 ∧
    Rational.from_string sentinelLib (String.mk []) = .error noMsg :=
  ⟨by decide, C3_from_string_raises_on_core_failure sentinelLib (String.mk [])
    (by decide)⟩

/-- C4: the claim states that constructing a Rational from a NaN or
infinite float (core returns the negative NonFiniteInput sentinel) signals
a failure.  `Rational.__init__` performs no validation — its embedding is
total, returning a `Rational` and never raising — so when the core returns
the negative sentinel, a live object holding that negative sentinel as its
handle is produced: the claimed invariant fails. -/
theorem C4_init_yields_live_object_with_negative_handle {D : Type}
    (lib : Lib D) (x : D) (hneg : lib.from_float x < 0) :
    (Rational.init lib x).handle < 0 ∧
    Rational.init lib x = Rational.from_handle (lib.from_float x) :=
  ⟨hneg, rfl⟩

/-- Closed instance of `C4_init_yields_live_object_with_negative_handle`
on the stub core whose from_float always reports failure. -/
theorem C4_witness :
    sentinelLib.from_float () < 0 ∧
    (Rational.init sentinelLib ()).handle < 0 ∧
    Rational.init sentinelLib () =
      Rational.from_handle (sentinelLib.from_float ()) :=
  ⟨by decide, C4_init_yields_live_object_with_negative_handle sentinelLib ()
    (by decide)⟩

/-- C5: to_float(from_float(x)) reproduces x exactly for every finite,
non-NaN double x.  In the spec model a finite double is a mantissa/exponent
pair, from_float is its exact dyadic rational value, and to_float returns a
nearest representable double; every nearest representable value to an
exactly representable rational is that rational itself, so the round trip
is exact. -/
theorem C5_roundtrip_exact (m e : ℤ) (hfin : FiniteDouble m e) (d : ℚ)
    (hnear : NearestDouble (from_floatSpec m e) d) :
    d = from_floatSpec m e := by
  obtain ⟨_, hmin⟩ := hnear
  have hq : Repr64 (from_floatSpec m e) := ⟨m, e, hfin, rfl⟩
  have h0 : |from_floatSpec m e - d| ≤
      |from_floatSpec m e - from_floatSpec m e| := hmin _ hq
  rw [sub_self, abs_zero] at h0
  have h2 : from_floatSpec m e - d = 0 :=
    abs_eq_zero.mp (le_antisymm h0 (abs_nonneg _))
  linarith

/-- Closed instance of `C5_roundtrip_exact` at the double 1.0
(mantissa 1, exponent 0). -/
theorem C5_witness :
    FiniteDouble 1 0 ∧ NearestDouble (from_floatSpec 1 0) 1 ∧
    (1 : ℚ) = from_floatSpec 1 0 := by
  have hfin : FiniteDouble 1 0 := ⟨by norm_num, by norm_num, by norm_num⟩
  have hone : from_floatSpec 1 0 = 1 := by norm_num [from_floatSpec, dyadic]
  have hnear : NearestDouble (from_floatSpec 1 0) 1 := by
    constructor
    · exact ⟨1, 0, hfin, hone.symm⟩
    · intro d' _
      rw [hone, sub_self, abs_zero]
      exact abs_nonneg _
  exact ⟨hfin, hnear, C5_roundtrip_exact 1 0 hfin 1 hnear⟩

/-- C6: for every Rational with a valid handle, float(r) raises a
`RationalException` exactly when the core to_float result has
valid = false, and otherwise returns the value of the core result. -/
theorem C6_float_raises_iff_invalid {D : Type} (lib : Lib D) (r : Rational)
    (_hvalid : 0 ≤ r.handle) :
    (Rational.toFloat lib r = .error floatErrMsg ↔
      (lib.to_float r.handle).valid = false) ∧
    ((lib.to_float r.handle).valid = true →
      Rational.toFloat lib r = .ok (lib.to_float r.handle).value) := by
  unfold Rational.toFloat
  cases hv : (lib.to_float r.handle).valid <;> simp [hv]

/-- Closed instance of `C6_float_raises_iff_invalid` on both stub cores:
the all-failing core raises, the all-succeeding core returns the value. -/
theorem C6_witness :
    (0 : Int) ≤ (0 : Int) ∧
    Rational.toFloat sentinelLib ⟨0⟩ = .error floatErrMsg ∧
    Rational.toFloat happyLib ⟨0⟩ = .ok () := by
  refine ⟨le_refl 0, ?_, ?_⟩
  · exact (C6_float_raises_iff_invalid sentinelLib ⟨0⟩ (by decide)).1.mpr
      (by decide)
  · exact (C6_float_raises_iff_invalid happyLib ⟨0⟩ (by decide)).2 (by decide)

/-- C7: the claim states that the explicit length passed to the core
from_string equals the number of bytes of the UTF-8 encoding of the
string.  The wrapper passes `len(string)`, the number of code points,
which disagrees with the byte count already on the one-character string
U+00BD whose UTF-8 encoding is two bytes: the declared length
under-reports the byte sequence. -/
theorem C7_declared_length_is_not_byte_count :
    (from_string_args halfStr).2 = 1 ∧
    (from_string_args halfStr).1.length = 2 ∧
    (from_string_args halfStr).2 ≠ (from_string_args halfStr).1.length := by
  refine ⟨?_, ?_, ?_⟩ <;> decide

/-- C8: every successful arithmetic operation returns, through `_binop`, a
newly constructed Rational whose fresh handle is distinct from both
operand handles, while both operand slots in the Value Store still hold
their previous values (the operand objects' handle fields are untouched:
the embedding constructs only a new object from the fresh handle). -/
theorem C8_binop_fresh_handle_preserves_operands (f : ℚ → ℚ → Option ℚ)
    (_hf : f = qadd ∨ f = qsub ∨ f = qmul ∨ f = qdiv)
    (st : Store) (a b r : Rational) (st' : Store)
    (hok : Rational.binopS f st a b = .ok (r, st')) :
    r.handle ≠ a.handle ∧ r.handle ≠ b.handle ∧
    st'.get a.handle = st.get a.handle ∧ st'.get b.handle = st.get b.handle := by
  unfold Rational.binopS validate_handle at hok
  by_cases hneg : (binCore f st a.handle b.handle).1 < 0
  · simp [hneg] at hok
  · simp [hneg] at hok
    obtain ⟨hr, hst⟩ := hok
    have h := binCore_ok f st a.handle b.handle
      (binCore f st a.handle b.handle).1 (binCore f st a.handle b.handle).2
      rfl (by omega)
    rw [← hr, ← hst]
    exact ⟨h.1, h.2.1, h.2.2.1, h.2.2.2⟩

/-- Closed instance of `C8_binop_fresh_handle_preserves_operands`: adding
the values in slots 0 and 1 allocates slot 2 and leaves both operand slots
intact. -/
theorem C8_witness :
    Rational.binopS qadd ⟨[some 1, some 2]⟩ ⟨0⟩ ⟨1⟩ =
      .ok (⟨2⟩, ⟨[some 1, some 2, some 3]⟩) ∧
    ((2 : Int) ≠ 0 ∧ (2 : Int) ≠ 1 ∧
      Store.get ⟨[some 1, some 2, some 3]⟩ 0 = Store.get ⟨[some 1, some 2]⟩ 0 ∧
      Store.get ⟨[some 1, some 2, some 3]⟩ 1 =
        Store.get ⟨[some 1, some 2]⟩ 1) := by
  have hok : Rational.binopS qadd ⟨[some 1, some 2]⟩ ⟨0⟩ ⟨1⟩ =
      .ok (⟨2⟩, ⟨[some 1, some 2, some 3]⟩) := by
    simp [Rational.binopS, binCore, Store.get, Store.allocate, allocFirst,
      qadd, validate_handle, Rational.from_handle]
    norm_num
  exact ⟨hok, C8_binop_fresh_handle_preserves_operands qadd (Or.inl rfl)
    ⟨[some 1, some 2]⟩ ⟨0⟩ ⟨1⟩ ⟨2⟩ ⟨[some 1, some 2, some 3]⟩ hok⟩

/-- C9: str(r) on a null pointer from to_string raises and performs no
free_string call, while on a non-null buffer whose bytes decode
successfully it calls free_string exactly once, on exactly the struct
to_string returned, and returns the decoded text. -/
theorem C9_str_frees_buffer_exactly_once {D : Type} (lib : Lib D)
    (decode : List UInt8 → Option String) (r : Rational) :
    ((lib.to_string r.handle).ptr = none →
      Rational.toStr lib decode r = (.error strErrMsg, [])) ∧
    (∀ bytes s, (lib.to_string r.handle).ptr = some bytes →
      decode bytes = some s →
      Rational.toStr lib decode r = (.ok s, [lib.to_string r.handle])) := by
  constructor
  · intro hp
    simp [Rational.toStr, hp]
  · intro bytes s hp hd
    simp [Rational.toStr, hp, hd]

/-- Closed instance of `C9_str_frees_buffer_exactly_once`: the all-failing
core raises with no free, the all-succeeding core frees its returned
buffer exactly once. -/
theorem C9_witness :
    Rational.toStr sentinelLib (fun _ => some oneHalfText) ⟨0⟩ =
      (.error strErrMsg, []) ∧
    Rational.toStr happyLib (fun _ => some oneHalfText) ⟨0⟩ =
      (.ok oneHalfText, [{ len := 3, ptr := some oneHalfBytes }]) := by
  constructor
  · exact (C9_str_frees_buffer_exactly_once sentinelLib
      (fun _ => some oneHalfText) ⟨0⟩).1 (by decide)
  · exact (C9_str_frees_buffer_exactly_once happyLib
      (fun _ => some oneHalfText) ⟨0⟩).2 oneHalfBytes oneHalfText rfl rfl

/-- C10: tearing down a Rational passes the stored handle — whatever it is,
with no validation — to the core's delete, exactly once; in particular an
object built by `Rational.__init__` from an input the core rejected (e.g.
a NaN, for which from_float returned the negative sentinel) passes that
negative sentinel to delete. -/
theorem C10_del_passes_stored_handle_once {D : Type} (lib : Lib D)
    (r : Rational) (x : D) :
    Rational.delCalls r = [r.handle] ∧
    (lib.from_float x < 0 →
      Rational.delCalls (Rational.init lib x) = [lib.from_float x] ∧
      (Rational.init lib x).handle < 0) :=
  ⟨rfl, fun h => ⟨rfl, h⟩⟩

/-- Closed instance of `C10_del_passes_stored_handle_once`: an object
built from the all-failing core's from_float hands the negative sentinel
-1 to delete on teardown. -/
theorem C10_witness :
    sentinelLib.from_float () < 0 ∧
    Rational.delCalls ⟨5⟩ = [(5 : Int)] ∧
    Rational.delCalls (Rational.init sentinelLib ()) =
      [sentinelLib.from_float ()] ∧
    (Rational.init sentinelLib ()).handle < 0 := by
  have h := C10_del_passes_stored_handle_once sentinelLib ⟨5⟩ ()
  exact ⟨by decide, h.1, h.2 (by decide)⟩

end PyRational
